import Mathlib

/-!
Shallow embedding of src/script.js (Puppy Bowl client).

The script talks to a REST API over fetch and mutates two pieces of
client-side state: the global list state.players and the DOM container
with id "players".  Here every function is embedded as a pure function:
the HTTP layer is an explicit input (a network outcome carrying the
parsed response), the global list is threaded as an argument and result,
and DOM content is a list of rendered items.
-/

namespace PuppyBowl

/-- A player record as the client consumes it: id, name, breed, status,
imageUrl (src/script.js data model). -/
structure Player where
  id : Int
  name : String
  breed : String
  status : String
  imageUrl : String
deriving DecidableEq

/-- Outcome of one network round trip: either a response was obtained and
its body parsed (the payload), or the awaited call threw (network failure
or a JSON parse error in response.json()). -/
inductive NetResult (α : Type) where
  | success : α → NetResult α
  | failure : NetResult α
deriving DecidableEq

/-- Result of running a JS try-block: a value, or a thrown exception. -/
inductive JsOutcome (α : Type) where
  | value : α → JsOutcome α
  | thrown : JsOutcome α
deriving DecidableEq

/-- The shape of json.data.players in a parsed list response:
an array of players, some non-array value (Array.isArray false), or
json.data itself absent, in which case the property access
json.data.players throws a TypeError. -/
inductive PlayersField where
  | arr : List Player → PlayersField
  | notArray : PlayersField
  | dataAbsent : PlayersField
deriving DecidableEq

/-- A parsed body for the list endpoint: the truthiness of json.success
and the shape of json.data.players. -/
structure ListResponse where
  success : Bool
  players : PlayersField
deriving DecidableEq

/-- The try-block of fetchAllPlayers (src/script.js lines 16-26):
evaluates json.success && Array.isArray(json.data.players); on true the
array, on false an empty state, and a thrown TypeError when json.success
is truthy but json.data is absent (the && short-circuits when
json.success is falsy, so dataAbsent does not throw then).  A network or
parse failure is a throw before the condition is reached. -/
def fetchAllPlayersTry (r : NetResult ListResponse) : JsOutcome (List Player) :=
  match r with
  | .failure => .thrown
  | .success json =>
    if json.success then
      match json.players with
      | .arr ps => .value ps
      | .notArray => .value []
      | .dataAbsent => .thrown
    else
      .value []

/-- fetchAllPlayers (src/script.js lines 15-31): the try-block wrapped in
the catch that resets state.players to [].  The result is the value of
state.players after the call; totality of this function is the
embedding of "no exception escapes". -/
def fetchAllPlayers (r : NetResult ListResponse) : List Player :=
  match fetchAllPlayersTry r with
  | .value ps => ps
  | .thrown => []

/-- A dynamic JavaScript value, as needed by the detail and create paths,
where the code passes parsed JSON around without a fixed shape. -/
inductive JVal where
  | undefined : JVal
  | null : JVal
  | jstr : String → JVal
  | jnum : Int → JVal
  | jbool : Bool → JVal
  | jobj : List (String × JVal) → JVal

/-- JavaScript truthiness of a value (empty string and 0 are falsy;
every object is truthy). -/
def truthy : JVal → Bool
  | .undefined => false
  | .null => false
  | .jstr s => s ≠ ""
  | .jnum n => n ≠ 0
  | .jbool b => b
  | .jobj _ => true

/-- Whether a value is nullish (null or undefined), as tested by the
optional-chaining operator. -/
def nullish : JVal → Bool
  | .undefined => true
  | .null => true
  | _ => false

/-- Plain property access v.k on a non-nullish value: field lookup on an
object (undefined when the key is absent), undefined on a primitive.
Access on null or undefined throws and is modelled separately (jget). -/
def jgetOpt (v : JVal) (k : String) : JVal :=
  match v with
  | .jobj fields =>
    match fields.find? (fun kv => kv.1 == k) with
    | some kv => kv.2
    | none => .undefined
  | _ => .undefined

/-- Plain property access v.k with the JS throwing behaviour: a TypeError
(error) on null and undefined, otherwise the jgetOpt result. -/
def jget (v : JVal) (k : String) : Except Unit JVal :=
  match v with
  | .undefined => .error ()
  | .null => .error ()
  | _ => .ok (jgetOpt v k)

/-- Optional-chained access v?.k: undefined when v is nullish (no throw),
otherwise plain access. -/
def joptChain (v : JVal) (k : String) : JVal :=
  if nullish v then .undefined else jgetOpt v k

/-- JS string coercion, as applied by textContent and template literals. -/
def jToString : JVal → String
  | .undefined => "undefined"
  | .null => "null"
  | .jstr s => s
  | .jnum n => toString n
  | .jbool true => "true"
  | .jbool false => "false"
  | .jobj _ => "[object Object]"

/-- An HTTP response for the per-player endpoint: response.ok, the
numeric status, and the parsed body (none when response.json() throws). -/
structure DetailResponse where
  ok : Bool
  status : Nat
  body : Option JVal

/-- fetchSinglePlayer (src/script.js lines 38-56): throws on !response.ok,
otherwise parses the body and returns json.data; every throw in the try
block (network failure, HTTP error, parse error, property access on a
null body) is caught and turned into null. -/
def fetchSinglePlayer (r : NetResult DetailResponse) : JVal :=
  match r with
  | .failure => .null
  | .success resp =>
    if !resp.ok then
      .null
    else
      match resp.body with
      | none => .null
      | some json =>
        match jget json "data" with
        | .ok v => v
        | .error _ => .null

/-- The field values of the new-player form: name, breed, imageUrl,
status (src/index-form fields read by the submit handler). -/
structure FormFields where
  name : String
  breed : String
  imageUrl : String
  status : String
deriving DecidableEq

/-- An HTTP response for the create (POST) endpoint. -/
structure CreateResponse where
  ok : Bool
  status : Nat
  body : Option JVal

/-- addNewPlayer (src/script.js lines 63-82): posts the player payload,
parses the body, and returns json?.data?.player when that chain yields a
truthy value, else null; a thrown fetch or parse error is caught and
returns null.  The response status is never consulted. -/
def addNewPlayer (_player : FormFields) (r : NetResult CreateResponse) : JVal :=
  match r with
  | .failure => .null
  | .success resp =>
    match resp.body with
    | none => .null
    | some json =>
      let d := joptChain json "data"
      let pl := joptChain d "player"
      if truthy pl then pl else .null

/-- An HTTP response for the delete endpoint (body unused by the code). -/
structure DeleteResponse where
  ok : Bool
  status : Nat
deriving DecidableEq

/-- What removePlayer leaves behind: the new value of state.players,
whether renderAllPlayers was invoked, and whether the catch logged an
error. -/
structure RemoveResult where
  players : List Player
  rendered : Bool
  loggedError : Bool
deriving DecidableEq

/-- removePlayer (src/script.js lines 88-112): issues the DELETE; on
!response.ok it throws, so the filter and the re-render are skipped and
the catch only logs; on ok it filters every p with p.id !== player.id
out of state.players and calls renderAllPlayers. -/
def removePlayer (r : NetResult DeleteResponse) (players : List Player)
    (target : Player) : RemoveResult :=
  match r with
  | .failure => ⟨players, false, true⟩
  | .success resp =>
    if resp.ok then
      ⟨players.filter (fun p => p.id != target.id), true, false⟩
    else
      ⟨players, false, true⟩

/-- Whether a delete round trip succeeded (response obtained and ok). -/
def deleteSucceeded : NetResult DeleteResponse → Bool
  | .failure => false
  | .success resp => resp.ok

/-- The observable content of one list card built by renderAllPlayers:
the two h3 texts, the img src and alt, and the two button labels. -/
structure Card where
  nameText : String
  idText : String
  imgSrc : String
  imgAlt : String
  detailButtonText : String
  deleteButtonText : String
deriving DecidableEq

/-- The card renderAllPlayers builds for one player (src/script.js lines
145-183): h3 with the name, h3 with the template literal for the id,
image with src = imageUrl and alt = name, and the two buttons. -/
def renderCard (p : Player) : Card :=
  ⟨p.name, "ID: " ++ toString p.id, p.imageUrl, p.name,
   "More details", "Delete"⟩

/-- The observable content of the single-player detail card built by
renderSinglePlayer (src/script.js lines 219-242). -/
structure DetailCard where
  nameText : String
  idText : String
  breedText : String
  statusText : String
  imgSrc : String
  imgAlt : String
  backButtonText : String
deriving DecidableEq

/-- One child of the "players" container: the placeholder li set through
innerHTML, a list card, or the detail card. -/
inductive RItem where
  | placeholderLi : String → RItem
  | playerCard : Card → RItem
  | detailCard : DetailCard → RItem
deriving DecidableEq

/-- renderAllPlayers (src/script.js lines 133-187): clears the container
(ul.innerHTML = ""), shows the single "No players." li when
state.players is empty, and otherwise appends one card per player in
state.players order.  prev is the container content before the call. -/
def renderAllPlayers (_prev : List RItem) (players : List Player) : List RItem :=
  let cleared : List RItem := []
  if players.length == 0 then
    cleared ++ [.placeholderLi "No players."]
  else
    cleared ++ players.map (fun p => .playerCard (renderCard p))

/-- renderSinglePlayer's DOM phase (src/script.js lines 202-243), as a
function of the value fetchSinglePlayer returned: clears the container;
when the result or its player field is falsy, shows the single
"Player not found." li; otherwise destructures the nested player and
builds the detail card (image src falls back to "" via imageUrl || "").
Both property accesses are on values already known truthy, so they
cannot throw and jgetOpt models them exactly. -/
def renderSinglePlayer (_prev : List RItem) (fetched : JVal) : List RItem :=
  let cleared : List RItem := []
  if !truthy fetched || !truthy (jgetOpt fetched "player") then
    cleared ++ [.placeholderLi "Player not found."]
  else
    let pv := jgetOpt fetched "player"
    let imageUrl := jgetOpt pv "imageUrl"
    cleared ++ [.detailCard
      ⟨jToString (jgetOpt pv "name"),
       "ID: " ++ jToString (jgetOpt pv "id"),
       "Breed: " ++ jToString (jgetOpt pv "breed"),
       "Status: " ++ jToString (jgetOpt pv "status"),
       (if truthy imageUrl then jToString imageUrl else ""),
       jToString (jgetOpt pv "name"),
       "Back to all players"⟩]

/-- What one run of the submit handler bound by renderNewPlayerForm
leaves behind: whether default navigation was prevented, the payload
passed to addNewPlayer, the field values of the visible (cloned) form
and of the detached original form after the handler, and whether init
was re-run. -/
structure SubmitOutcome where
  defaultPrevented : Bool
  createPayload : FormFields
  visibleFormAfter : FormFields
  detachedFormAfter : FormFields
  initRan : Bool
deriving DecidableEq

/-- The default (initial) values of the form fields, restored by
form.reset(). -/
def emptyFields : FormFields := ⟨"", "", "", ""⟩

/-- The submit handler bound by renderNewPlayerForm (src/script.js lines
257-277).  renderNewPlayerForm replaced the original form node by its
clone newForm, so the form the user sees and fills is newForm (visible)
while the variable form refers to the detached original (detached).
The handler: event.preventDefault(); reads the payload from newForm's
fields; awaits addNewPlayer (which catches internally and never throws,
so the remaining statements always run and its result — createResult —
is discarded); calls form.reset(), which resets the detached node, not
the visible one; and calls init(). -/
def renderNewPlayerFormSubmit (visible : FormFields) (_detached : FormFields)
    (_createResult : JVal) : SubmitOutcome :=
  ⟨true, visible, visible, emptyFields, true⟩

/-- C1: after fetchAllPlayers, state.players equals exactly the returned
array (same order) when the parsed body is a well-formed success
envelope; on a false success flag, a non-array players field, an absent
data field, or a thrown fetch/parse, state.players becomes []; and every
throw inside the try-block is absorbed by the catch, so no exception
escapes the call (the function is total and the last conjunct shows the
catch maps every thrown outcome to []). -/
theorem fetchAllPlayers_correct :
    (∀ ps : List Player, fetchAllPlayers (.success ⟨true, .arr ps⟩) = ps)
    ∧ (∀ f : PlayersField, fetchAllPlayers (.success ⟨false, f⟩) = [])
    ∧ fetchAllPlayers (.success ⟨true, .notArray⟩) = []
    ∧ fetchAllPlayers (.success ⟨true, .dataAbsent⟩) = []
    ∧ fetchAllPlayers .failure = []
    ∧ (∀ r : NetResult ListResponse,
        fetchAllPlayersTry r = .thrown → fetchAllPlayers r = []) := by
  refine ⟨fun ps => rfl, fun f => rfl, rfl, rfl, rfl, fun r h => ?_⟩
  unfold fetchAllPlayers
  rw [h]

/-- C1 witness: the catch clause observed at one concrete thrown
outcome, a network failure. -/
theorem fetchAllPlayers_correct_witness :
    fetchAllPlayers (.failure : NetResult ListResponse) = [] :=
  fetchAllPlayers_correct.2.2.2.2.2 .failure rfl

/-- C2: on a successful delete the new state is exactly the old state
with the entries whose id equals the target id removed: an entry of the
old state survives if and only if its id differs from the target id, the
survivors keep their original order (sublist), and the result is the
filter the source writes; on a failed delete (non-ok status or network
error) state.players is unchanged, nothing is re-rendered, and the
failure is only logged. -/
theorem removePlayer_correct :
    ∀ (st : Nat) (players : List Player) (target : Player),
    ((removePlayer (.success ⟨true, st⟩) players target).players
        = players.filter (fun p => p.id != target.id))
    ∧ (∀ p ∈ players,
        (p.id ≠ target.id ↔
          p ∈ (removePlayer (.success ⟨true, st⟩) players target).players))
    ∧ (removePlayer (.success ⟨true, st⟩) players target).players.Sublist players
    ∧ removePlayer (.success ⟨false, st⟩) players target = ⟨players, false, true⟩
    ∧ removePlayer .failure players target = ⟨players, false, true⟩ := by
  intro st players target
  refine ⟨rfl, fun p hp => ?_, ?_, rfl, rfl⟩
  · constructor
    · intro hne
      exact List.mem_filter.mpr ⟨hp, by simpa [bne_iff_ne] using hne⟩
    · intro hmem
      have h2 := List.mem_filter.mp hmem
      simpa [bne_iff_ne] using h2.2
  · exact List.filter_sublist players

/-- C2 witness: deleting id 1 from the two-player state keeps the
player with id 2. -/
theorem removePlayer_correct_witness :
    (⟨2, "Bo", "", "", ""⟩ : Player) ∈
      (removePlayer (.success ⟨true, 200⟩)
        [⟨1, "Ada", "", "", ""⟩, ⟨2, "Bo", "", "", ""⟩]
        ⟨1, "Ada", "", "", ""⟩).players :=
  ((removePlayer_correct 200
      [⟨1, "Ada", "", "", ""⟩, ⟨2, "Bo", "", "", ""⟩]
      ⟨1, "Ada", "", "", ""⟩).2.1
    ⟨2, "Bo", "", "", ""⟩ (by decide)).mp (by decide)

/-- C10: after a successful removePlayer, no entry whose id equals the
target id remains in state.players — the filter removes every such
entry, duplicates included. -/
theorem removePlayer_removes_all_with_id :
    ∀ (st : Nat) (players : List Player) (target : Player) (p : Player),
      p ∈ (removePlayer (.success ⟨true, st⟩) players target).players →
      p.id ≠ target.id := by
  intro st players target p hp
  have h2 := List.mem_filter.mp hp
  simpa [bne_iff_ne] using h2.2

/-- C10 witness: a state holding two distinct entries that share id 1;
after deleting id 1 only the id-2 entry remains, and the theorem applied
to it gives its id apart from the target's. -/
theorem removePlayer_removes_all_with_id_witness :
    (removePlayer (.success ⟨true, 200⟩)
        [⟨1, "Ada", "", "", ""⟩, ⟨2, "Bo", "", "", ""⟩, ⟨1, "Ada2", "", "", ""⟩]
        ⟨1, "Ada", "", "", ""⟩).players = [⟨2, "Bo", "", "", ""⟩]
    ∧ (⟨2, "Bo", "", "", ""⟩ : Player).id ≠ (⟨1, "Ada", "", "", ""⟩ : Player).id :=
  ⟨by decide,
   removePlayer_removes_all_with_id 200
     [⟨1, "Ada", "", "", ""⟩, ⟨2, "Bo", "", "", ""⟩, ⟨1, "Ada2", "", "", ""⟩]
     ⟨1, "Ada", "", "", ""⟩ ⟨2, "Bo", "", "", ""⟩ (by decide)⟩

/-- C3 counterexample: on a concrete successful detail fetch whose body
is the documented envelope, fetchSinglePlayer returns json.data — the
wrapper object that still carries the player field — and not the nested
player object itself, contrary to the claim. -/
theorem fetchSinglePlayer_returns_wrapper :
    fetchSinglePlayer (.success ⟨true, 200,
        some (.jobj [("data",
          .jobj [("player", .jobj [("name", .jstr "Rex")])])])⟩)
      = .jobj [("player", .jobj [("name", .jstr "Rex")])]
    ∧ (JVal.jobj [("player", .jobj [("name", .jstr "Rex")])]
        ≠ .jobj [("name", .jstr "Rex")]) := by
  refine ⟨rfl, fun h => ?_⟩
  simp at h

/-- C3 amended: on success (HTTP ok and parseable body) fetchSinglePlayer
returns the envelope's data field — the wrapper containing the nested
player record — rather than the player object itself (undefined when the
parsed body has no data field, and a throwing data access on a null body
is caught); on a non-ok status, an unparseable body, or a network
failure it returns null, never throwing. -/
theorem fetchSinglePlayer_correct :
    (∀ (st : Nat) (json : JVal),
      fetchSinglePlayer (.success ⟨true, st, some json⟩)
        = (match jget json "data" with
           | .ok v => v
           | .error _ => .null))
    ∧ (∀ (st : Nat) (body : Option JVal),
        fetchSinglePlayer (.success ⟨false, st, body⟩) = .null)
    ∧ (∀ st : Nat, fetchSinglePlayer (.success ⟨true, st, none⟩) = .null)
    ∧ fetchSinglePlayer .failure = .null :=
  ⟨fun _ _ => rfl, fun _ _ => rfl, fun _ => rfl, rfl⟩

/-- C5 counterexample: on a delete that fails with a non-ok status,
renderAllPlayers does not fire inside removePlayer — the throw skips the
re-render and the catch only logs. -/
theorem removePlayer_failed_delete_no_render :
    (removePlayer (.success ⟨false, 500⟩)
        [⟨1, "Ada", "", "", ""⟩] ⟨1, "Ada", "", "", ""⟩).rendered = false := rfl

/-- C5 amended: the re-render inside removePlayer fires exactly when the
delete round trip succeeds; on any failed delete (non-ok status or
network error) it does not fire. -/
theorem removePlayer_rendered_iff_success :
    ∀ (r : NetResult DeleteResponse) (players : List Player) (target : Player),
      (removePlayer r players target).rendered = deleteSucceeded r := by
  intro r players target
  cases r with
  | failure => rfl
  | success resp =>
    cases resp with
    | mk ok st => cases ok <;> rfl

/-- C9: addNewPlayer never inspects the HTTP status — its result is the
same function of the parsed body for every ok flag and status code; when
the optional chain json?.data?.player yields a truthy value it returns
that value (so a created player is returned even on a failure status, as
the concrete 500 response shows), and it returns null when the body
lacks the chain, cannot be parsed, or the request throws. -/
theorem addNewPlayer_ignores_status :
    (∀ (p : FormFields) (ok okB : Bool) (st stB : Nat) (body : Option JVal),
      addNewPlayer p (.success ⟨ok, st, body⟩)
        = addNewPlayer p (.success ⟨okB, stB, body⟩))
    ∧ (∀ (p : FormFields) (ok : Bool) (st : Nat) (json : JVal),
      addNewPlayer p (.success ⟨ok, st, some json⟩)
        = (if truthy (joptChain (joptChain json "data") "player")
           then joptChain (joptChain json "data") "player"
           else .null))
    ∧ (∀ (p : FormFields) (ok : Bool) (st : Nat),
        addNewPlayer p (.success ⟨ok, st, none⟩) = .null)
    ∧ (∀ p : FormFields, addNewPlayer p .failure = .null)
    ∧ addNewPlayer ⟨"Rex", "Lab", "", "Bench"⟩ (.success ⟨false, 500,
        some (.jobj [("data",
          .jobj [("player", .jobj [("name", .jstr "Rex")])])])⟩)
      = .jobj [("name", .jstr "Rex")] :=
  ⟨fun _ _ _ _ _ _ => rfl, fun _ _ _ _ => rfl, fun _ _ _ => rfl,
   fun _ => rfl, rfl⟩

/-- C4: for every submission the handler prevents default navigation,
passes exactly the visible form's field values to addNewPlayer, discards
the create result (the outcome is the same function of the fields for
every create result), and re-runs init regardless of the create's
outcome — but the visible form is not reset: form.reset() acts on the
detached original node, as the spec's example submission shows (its
fields still read Rex/Lab//Bench after the handler). -/
theorem renderNewPlayerFormSubmit_behavior :
    (∀ (v d : FormFields) (r rB : JVal),
      (renderNewPlayerFormSubmit v d r).defaultPrevented = true
      ∧ (renderNewPlayerFormSubmit v d r).createPayload = v
      ∧ (renderNewPlayerFormSubmit v d r).initRan = true
      ∧ (renderNewPlayerFormSubmit v d r).visibleFormAfter = v
      ∧ (renderNewPlayerFormSubmit v d r).detachedFormAfter = emptyFields
      ∧ renderNewPlayerFormSubmit v d r = renderNewPlayerFormSubmit v d rB)
    ∧ (renderNewPlayerFormSubmit ⟨"Rex", "Lab", "", "Bench"⟩ emptyFields
        .null).visibleFormAfter ≠ emptyFields :=
  ⟨fun _ _ _ _ => ⟨rfl, rfl, rfl, rfl, rfl, rfl⟩, by decide⟩

/-- C6: rendering the empty state yields exactly the one "No players."
placeholder and zero cards; rendering a non-empty state yields exactly
one card per player, in state order, and the card built for a player
carries its name and the id-labelled element. -/
theorem renderAllPlayers_correct :
    ∀ prev : List RItem,
    renderAllPlayers prev [] = [.placeholderLi "No players."]
    ∧ (∀ players : List Player, players ≠ [] →
        renderAllPlayers prev players
          = players.map (fun p => .playerCard (renderCard p))
        ∧ (renderAllPlayers prev players).length = players.length)
    ∧ (∀ p : Player, renderCard p
        = ⟨p.name, "ID: " ++ toString p.id, p.imageUrl, p.name,
           "More details", "Delete"⟩) := by
  intro prev
  refine ⟨rfl, fun players hne => ?_, fun p => rfl⟩
  cases players with
  | nil => exact absurd rfl hne
  | cons a l => exact ⟨rfl, by simp [renderAllPlayers]⟩

/-- C6 witness: a concrete one-player state renders to exactly its one
card, holding the name and the id label. -/
theorem renderAllPlayers_correct_witness :
    ([⟨1, "Ada", "Lab", "Bench", "u"⟩] : List Player) ≠ []
    ∧ renderAllPlayers [] [⟨1, "Ada", "Lab", "Bench", "u"⟩]
        = [.playerCard ⟨"Ada", "ID: 1", "u", "Ada", "More details", "Delete"⟩] := by
  refine ⟨by decide, ?_⟩
  have h := ((renderAllPlayers_correct []).2.1
    [⟨1, "Ada", "Lab", "Bench", "u"⟩] (by decide)).1
  rw [h]
  rfl

/-- C7: renderAllPlayers first clears the container, so its output does
not depend on the previous content: rendering twice in a row with the
state unchanged leaves the container observably identical to rendering
once. -/
theorem renderAllPlayers_idempotent :
    ∀ (prev : List RItem) (players : List Player),
      renderAllPlayers (renderAllPlayers prev players) players
        = renderAllPlayers prev players :=
  fun _ _ => rfl

/-- C8: whenever the detail fetch yielded null, or a value whose player
field is absent, renderSinglePlayer renders exactly the one
"Player not found." placeholder (and, being a total function, returns
without throwing). -/
theorem renderSinglePlayer_not_found :
    ∀ (prev : List RItem) (fetched : JVal),
      (fetched = .null ∨ jgetOpt fetched "player" = .undefined) →
      renderSinglePlayer prev fetched = [.placeholderLi "Player not found."] := by
  intro prev fetched h
  rcases h with h | h
  · subst h; rfl
  · simp [renderSinglePlayer, h, truthy]

/-- C8 witness: the placeholder at the concrete absent result null. -/
theorem renderSinglePlayer_not_found_witness :
    renderSinglePlayer [] .null = [.placeholderLi "Player not found."] :=
  renderSinglePlayer_not_found [] .null (Or.inl rfl)

end PuppyBowl
